import Mathlib

/-!
Shallow embedding of the event-sourced core of the `event-driven-architecture`
repository (TypeScript), together with proofs about the behaviour its
specification claims.

Conventions of the embedding:
* aggregates are immutable records; the mutating TypeScript methods become
  functions `State → ... → State` (or `Except String State` when the source
  method can `throw`);
* JavaScript `Map<string, T>` objects (insertion ordered, set-overwrites,
  delete) are modelled as association lists `List (String × T)` with the
  helpers `mapSet` / `mapGet` / `mapDelete` below;
* JavaScript numbers that the code uses for stock, money and quantities are
  modelled as `Int`; store versions are `Nat`;
* wall-clock `Date` values produced by `new Date()` carry no information used
  by any modelled branch, so the `...At` timestamp fields of aggregate state
  are omitted; the event store's `timestamp` column is kept (as `Nat`) because
  queries order by it;
* database-assigned values (`gen_random_uuid()` ids, `NOW()` timestamps) are
  supplied by explicit oracle functions `Nat → Nat` indexed by insertion
  position within a batch;
* the Joi validation run by the `OrderAddress` / `OrderItem` /
  `ProductPrice` value-object constructors is modelled by explicit
  `validate` functions returning `Except`; the `Order` and `Product`
  aggregate constructors that invoke them are modelled by `Order.mkNew` /
  `Product.mkNew`, which — as in the source — always fail because the
  constructors' own defaults violate the schemas, while `Order.init` /
  `Product.init` carry only the assigned state used by the replay-semantics
  model.
-/

namespace EventDriven

/-- JS `Map.set` on an association list: overwrite the entry of an existing
key (keeping its position, as the JS insertion order does), otherwise append. -/
def mapSet {α : Type} (m : List (String × α)) (k : String) (v : α) :
    List (String × α) :=
  if m.any (fun p => p.1 == k) then
    m.map (fun p => if p.1 == k then (k, v) else p)
  else
    m ++ [(k, v)]

/-- JS `Map.get`. -/
def mapGet {α : Type} (m : List (String × α)) (k : String) : Option α :=
  (m.find? (fun p => p.1 == k)).map (fun p => p.2)

/-- JS `Map.delete`. -/
def mapDelete {α : Type} (m : List (String × α)) (k : String) :
    List (String × α) :=
  m.filter (fun p => p.1 != k)

/-! ## Inventory aggregate

Source: `packages/inventory-service/src/domain/aggregates/Inventory.ts`
(delivered alongside `InventoryRepository.ts`). -/

/-- The `changeType` argument of `Inventory.updateStock`. -/
inductive ChangeType : Type
  | increment
  | decrement
  | set
deriving DecidableEq, Repr

/-- Source `StockReservation` record held in the `reservations` map.  The source also
stores a `reservedAt : Date`; it is never read, so it is omitted. -/
structure StockReservation : Type where
  id : String
  orderId : String
  quantity : Int
  expiresAt : Nat
  isAllocated : Bool
deriving DecidableEq, Repr

/-- The inventory event variants dispatched on `event.eventType` in
`Inventory.apply`, with the `data` fields the apply-functions read.  The
`unknownEvent` constructor models the missing `default` branch of the switch
(unknown event types are ignored). -/
inductive InvEvent : Type
  | inventoryItemCreated (productId sku : String)
      (initialStock lowStockThreshold reservedStock : Int)
  | stockUpdated (productId : String) (oldStock newStock : Int)
      (changeReason : String) (changeType : ChangeType)
  | stockReserved (productId orderId : String) (quantity : Int) (expiresAt : Nat)
  | stockReleased (productId orderId : String) (quantity : Int) (reason : String)
  | stockAllocated (productId orderId : String) (quantity : Int)
  | lowStockAlert (productId : String) (currentStock threshold : Int)
  | outOfStockAlert (productId : String)
  | inventoryThresholdUpdated (productId : String) (oldThreshold newThreshold : Int)
  | unknownEvent (eventType : String)
deriving DecidableEq, Repr

/-- In-memory state of the `Inventory` aggregate class. -/
structure Inventory : Type where
  id : String
  productId : String
  sku : String
  currentStock : Int
  reservedStock : Int
  lowStockThreshold : Int
  reservations : List (String × StockReservation)
  version : Nat
  uncommittedEvents : List InvEvent
deriving DecidableEq, Repr

/-- The `constructor(id)` defaults of `Inventory`. -/
def Inventory.init (id : String) : Inventory :=
  { id := id
    productId := ""
    sku := ""
    currentStock := 0
    reservedStock := 0
    lowStockThreshold := 10
    reservations := []
    version := 0
    uncommittedEvents := [] }

/-- Source `Inventory.apply`: the switch over `event.eventType` together with the
private apply-functions it dispatches to. -/
def Inventory.apply (s : Inventory) (e : InvEvent) : Inventory :=
  match e with
  | .inventoryItemCreated productId sku initialStock lowStockThreshold _ =>
      { s with
        productId := productId
        sku := sku
        currentStock := initialStock
        lowStockThreshold := lowStockThreshold }
  | .stockUpdated _ _ newStock _ _ =>
      { s with currentStock := newStock }
  | .stockReserved _ orderId quantity expiresAt =>
      let r : StockReservation :=
        { id := s.id ++ "-" ++ orderId
          orderId := orderId
          quantity := quantity
          expiresAt := expiresAt
          isAllocated := false }
      { s with
        reservations := mapSet s.reservations r.id r
        reservedStock := s.reservedStock + quantity }
  | .stockReleased _ orderId _ _ =>
      let reservationId := s.id ++ "-" ++ orderId
      match mapGet s.reservations reservationId with
      | some r =>
          { s with
            reservedStock := s.reservedStock - r.quantity
            reservations := mapDelete s.reservations reservationId }
      | none => s
  | .stockAllocated _ orderId quantity =>
      let reservationId := s.id ++ "-" ++ orderId
      match mapGet s.reservations reservationId with
      | some r =>
          { s with
            reservations := mapSet s.reservations reservationId { r with isAllocated := true }
            currentStock := s.currentStock - quantity
            reservedStock := s.reservedStock - quantity }
      | none => s
  | .lowStockAlert _ _ _ => s
  | .outOfStockAlert _ => s
  | .inventoryThresholdUpdated _ _ newThreshold =>
      { s with lowStockThreshold := newThreshold }
  | .unknownEvent _ => s

/-- The private `applyEvent` helper: `apply`, then `version++`, then push onto
`uncommittedEvents`. -/
def Inventory.applyEvent (s : Inventory) (e : InvEvent) : Inventory :=
  let s1 := s.apply e
  { s1 with
    version := s1.version + 1
    uncommittedEvents := s1.uncommittedEvents ++ [e] }

/-- Source `Inventory.create`: synthesize the first event. -/
def Inventory.create (id productId sku : String) (initialStock lowStockThreshold : Int) :
    Inventory :=
  (Inventory.init id).applyEvent
    (.inventoryItemCreated productId sku initialStock lowStockThreshold 0)

/-- Source `Inventory.fromEvents`: fold every event through `applyEvent`. -/
def Inventory.fromEvents (id : String) (events : List InvEvent) : Inventory :=
  events.foldl Inventory.applyEvent (Inventory.init id)

/-- Source `getAvailableStock()`. -/
def Inventory.getAvailableStock (s : Inventory) : Int :=
  max 0 (s.currentStock - s.reservedStock)

/-- The private `checkStockAlerts` helper, called by `updateStock` only. -/
def Inventory.checkStockAlerts (s : Inventory) : Inventory :=
  let availableStock := s.getAvailableStock
  if availableStock = 0 then
    s.applyEvent (.outOfStockAlert s.productId)
  else if availableStock ≤ s.lowStockThreshold then
    s.applyEvent (.lowStockAlert s.productId availableStock s.lowStockThreshold)
  else
    s

/-- The `newStockValue` computation inside `Inventory.updateStock`. -/
def Inventory.newStockValue (s : Inventory) (newStock : Int) (changeType : ChangeType) : Int :=
  match changeType with
  | .increment => s.currentStock + newStock
  | .decrement => max 0 (s.currentStock - newStock)
  | .set => max 0 newStock

/-- Source `Inventory.updateStock` (never throws). -/
def Inventory.updateStock (s : Inventory) (newStock : Int) (changeReason : String)
    (changeType : ChangeType) : Inventory :=
  let oldStock := s.currentStock
  (s.applyEvent
      (.stockUpdated s.productId oldStock (s.newStockValue newStock changeType)
        changeReason changeType)).checkStockAlerts

/-- Source `Inventory.reserveStock`. -/
def Inventory.reserveStock (s : Inventory) (orderId : String) (quantity : Int)
    (expiresAt : Nat) : Except String Inventory :=
  if quantity ≤ 0 then
    .error "Reservation quantity must be greater than zero"
  else if s.getAvailableStock < quantity then
    .error "Insufficient available stock for reservation"
  else
    .ok (s.applyEvent (.stockReserved s.productId orderId quantity expiresAt))

/-- Source `Inventory.releaseStock`. -/
def Inventory.releaseStock (s : Inventory) (orderId : String) (reason : String) :
    Except String Inventory :=
  match mapGet s.reservations (s.id ++ "-" ++ orderId) with
  | none => .error "Stock reservation not found"
  | some r => .ok (s.applyEvent (.stockReleased s.productId orderId r.quantity reason))

/-- Source `Inventory.allocateStock`. -/
def Inventory.allocateStock (s : Inventory) (orderId : String) (quantity : Int) :
    Except String Inventory :=
  match mapGet s.reservations (s.id ++ "-" ++ orderId) with
  | none => .error "Stock reservation not found"
  | some r =>
      if r.quantity < quantity then
        .error "Allocation quantity cannot exceed reserved quantity"
      else
        .ok (s.applyEvent (.stockAllocated s.productId orderId quantity))

/-- Contribution of one reservation to `reservedStock` accounting: allocated
reservations count zero. -/
def reservationContrib (r : StockReservation) : Int :=
  if r.isAllocated then 0 else r.quantity

/-- Sum of `quantity` over the active (non-allocated) reservations of a map.
Released reservations are deleted from the map, so they do not appear. -/
def activeSum (m : List (String × StockReservation)) : Int :=
  (m.map (fun p => reservationContrib p.2)).sum

/-- The reserve/release/allocate command alphabet of the Inventory aggregate
(the commands quantified over by the spec's inventory invariant). -/
inductive InvCmd : Type
  | reserve (orderId : String) (quantity : Int) (expiresAt : Nat)
  | release (orderId : String) (reason : String)
  | allocate (orderId : String) (quantity : Int)
deriving DecidableEq, Repr

/-- Dispatch one command to the corresponding aggregate method. -/
def Inventory.runCmd (s : Inventory) : InvCmd → Except String Inventory
  | .reserve o q e => s.reserveStock o q e
  | .release o r => s.releaseStock o r
  | .allocate o q => s.allocateStock o q

/-- Side conditions under which the amended inventory invariant is preserved:
no re-reservation over a live (unallocated) reservation, releases and
allocations only target unallocated reservations, and allocations take the
full reserved quantity. -/
def Inventory.goodStep (s : Inventory) : InvCmd → Bool
  | .reserve o _ _ =>
      match mapGet s.reservations (s.id ++ "-" ++ o) with
      | some r => r.isAllocated
      | none => true
  | .release o _ =>
      match mapGet s.reservations (s.id ++ "-" ++ o) with
      | some r => !r.isAllocated
      | none => true
  | .allocate o q =>
      match mapGet s.reservations (s.id ++ "-" ++ o) with
      | some r => !r.isAllocated && q == r.quantity
      | none => true

/-- Run a command sequence, requiring every step to satisfy `goodStep` and to
be accepted by the aggregate; returns the intermediate states. -/
def Inventory.runGood (s : Inventory) : List InvCmd → Option (List Inventory)
  | [] => some []
  | c :: cs =>
      if s.goodStep c = true then
        match s.runCmd c with
        | .ok s1 => (Inventory.runGood s1 cs).map (fun l => s1 :: l)
        | .error _ => none
      else
        none

/-- The invariant claimed by the spec for the Inventory aggregate. -/
def Inventory.claimedInvariant (s : Inventory) : Prop :=
  s.reservedStock = activeSum s.reservations ∧
  s.getAvailableStock = max 0 (s.currentStock - s.reservedStock) ∧
  0 ≤ s.getAvailableStock

instance (s : Inventory) : Decidable s.claimedInvariant :=
  inferInstanceAs (Decidable (s.reservedStock = activeSum s.reservations ∧
    s.getAvailableStock = max 0 (s.currentStock - s.reservedStock) ∧
    0 ≤ s.getAvailableStock))

/-- Induction invariant: unique reservation keys plus the reserved-stock
accounting equation. -/
def Inventory.goodState (s : Inventory) : Prop :=
  (s.reservations.map Prod.fst).Nodup ∧ s.reservedStock = activeSum s.reservations

/-! ## Order aggregate

Source: `packages/order-service/src/domain/aggregates/Order.ts` with the
`OrderItem` / `OrderAddress` value objects. -/

inductive OrderStatus : Type
  | pending
  | confirmed
  | payment_pending
  | paid
  | shipped
  | delivered
  | cancelled
  | refunded
deriving DecidableEq, Repr

/-- Source `OrderAddressData`.  The Joi schema of the `OrderAddress` value object is
not modelled (no claim depends on address validation). -/
structure OrderAddress : Type where
  street : String
  city : String
  state : String
  zipCode : String
  country : String
  phone : Option String
  email : Option String
deriving DecidableEq, Repr

/-- The all-empty address the `Order` constructor builds. -/
def emptyAddress : OrderAddress :=
  { street := "", city := "", state := "", zipCode := "", country := "",
    phone := none, email := none }

/-- Source `OrderItemData` (id, product, sku, name, quantity, unit price, total
price, currency); money and quantities as `Int`. -/
structure OrderItemM : Type where
  id : String
  productId : String
  sku : String
  name : String
  quantity : Int
  unitPrice : Int
  totalPrice : Int
  currency : String
deriving DecidableEq, Repr

/-- Shape of one entry of `OrderCreated.data.items`. -/
structure CreatedItem : Type where
  productId : String
  quantity : Int
  price : Int
  sku : String
deriving DecidableEq, Repr

inductive AddressType : Type
  | shipping
  | billing
deriving DecidableEq, Repr

/-- The order event variants dispatched in `Order.apply`, carrying the `data`
fields the apply-functions read (pure `Date` payloads are omitted). -/
inductive OrderEvent : Type
  | orderCreated (userId : String) (items : List CreatedItem) (totalAmount : Int)
      (currency : String) (shippingAddress billingAddress : OrderAddress)
      (paymentMethod : String)
  | orderConfirmed (confirmedBy : String)
  | orderPaymentRequested (paymentId : String) (amount : Int)
      (currency paymentMethod : String)
  | orderPaid (paymentId transactionId : String) (amount : Int) (currency : String)
  | orderPaymentFailed (paymentId reason : String) (errorCode : Option String)
  | orderShipped (trackingNumber carrier : String)
  | orderDelivered (deliveredTo : String) (signature : Option String)
  | orderCancelled (cancelledBy reason : String) (refundAmount : Option Int)
  | orderRefunded (refundId : String) (refundAmount : Int)
      (currency reason refundMethod : String)
  | orderItemUpdated (itemId productId : String) (quantity price : Int)
  | orderItemRemoved (itemId productId : String) (reason : Option String)
  | orderStatusChanged (newStatus : OrderStatus)
  | orderAddressUpdated (addressType : AddressType)
      (oldAddress newAddress : OrderAddress)
  | unknownEvent (eventType : String)
deriving DecidableEq, Repr

/-- In-memory state of the `Order` aggregate class (`...At` dates omitted). -/
structure Order : Type where
  id : String
  userId : String
  items : List (String × OrderItemM)
  totalAmount : Int
  currency : String
  status : OrderStatus
  shippingAddress : OrderAddress
  billingAddress : OrderAddress
  paymentMethod : String
  paymentId : Option String
  trackingNumber : Option String
  carrier : Option String
  version : Nat
  uncommittedEvents : List OrderEvent
deriving DecidableEq, Repr

/-- The field assignments of `constructor(id)` of `Order`.  In the source the
constructor also builds two `OrderAddress` value objects over all-empty
strings, whose Joi schema rejects them, so `new Order(id)` always throws
`Invalid order address`; that throwing path is modelled separately by
`Order.mkNew`, while `Order.init` carries only the assigned state (the
placeholder addresses exist solely to be overwritten by
`applyOrderCreated`). -/
def Order.init (id : String) : Order :=
  { id := id
    userId := ""
    items := []
    totalAmount := 0
    currency := "USD"
    status := .pending
    shippingAddress := emptyAddress
    billingAddress := emptyAddress
    paymentMethod := ""
    paymentId := none
    trackingNumber := none
    carrier := none
    version := 0
    uncommittedEvents := [] }

/-- Source `recalculateTotal`: sum of the current items' total prices. -/
def recalculateTotal (items : List (String × OrderItemM)) : Int :=
  (items.map (fun p => p.2.totalPrice)).sum

/-- Source `Order.apply`: the switch over `event.eventType` with the private
apply-functions, modelled by their assignment semantics.  Two throwing paths
inside the source apply-functions are modelled separately rather than
silently dropped: `applyOrderCreated` builds each item through the
`OrderItem` constructor with an id of the form `id ++ "-" ++ productId`
(not a UUID) and a name of "",
both rejected by `OrderItem.schema` — see `OrderItem.validate`, which proves
that build would throw — and `applyOrderItemUpdated` delegates to
`OrderItem.updateQuantity`, which throws for a non-positive quantity; the
arithmetic effect (`totalPrice = unitPrice * quantity`) is modelled. -/
def Order.apply (s : Order) (e : OrderEvent) : Order :=
  match e with
  | .orderCreated userId items totalAmount currency shippingAddress billingAddress
      paymentMethod =>
      let s1 := { s with
        userId := userId
        currency := currency
        shippingAddress := shippingAddress
        billingAddress := billingAddress
        paymentMethod := paymentMethod }
      let items1 := items.foldl (fun m it =>
        let orderItem : OrderItemM :=
          { id := s.id ++ "-" ++ it.productId
            productId := it.productId
            sku := it.sku
            name := ""
            quantity := it.quantity
            unitPrice := it.price
            totalPrice := it.price * it.quantity
            currency := currency }
        mapSet m orderItem.id orderItem) s.items
      { s1 with items := items1, totalAmount := totalAmount }
  | .orderConfirmed _ => { s with status := .confirmed }
  | .orderPaymentRequested paymentId _ _ _ =>
      { s with status := .payment_pending, paymentId := some paymentId }
  | .orderPaid paymentId _ _ _ =>
      { s with status := .paid, paymentId := some paymentId }
  | .orderPaymentFailed _ _ _ => { s with status := .pending }
  | .orderShipped trackingNumber carrier =>
      { s with
        status := .shipped
        trackingNumber := some trackingNumber
        carrier := some carrier }
  | .orderDelivered _ _ => { s with status := .delivered }
  | .orderCancelled _ _ _ => { s with status := .cancelled }
  | .orderRefunded _ _ _ _ _ => { s with status := .refunded }
  | .orderItemUpdated itemId _ quantity _ =>
      (match mapGet s.items itemId with
      | some item =>
          let updatedItem := { item with
            quantity := quantity
            totalPrice := item.unitPrice * quantity }
          let items1 := mapSet s.items itemId updatedItem
          { s with items := items1, totalAmount := recalculateTotal items1 }
      | none => s)
  | .orderItemRemoved itemId _ _ =>
      let items1 := mapDelete s.items itemId
      { s with items := items1, totalAmount := recalculateTotal items1 }
  | .orderStatusChanged newStatus => { s with status := newStatus }
  | .orderAddressUpdated addressType _ newAddress =>
      match addressType with
      | .shipping => { s with shippingAddress := newAddress }
      | .billing => { s with billingAddress := newAddress }
  | .unknownEvent _ => s

/-- The private `applyEvent` helper of `Order`. -/
def Order.applyEvent (s : Order) (e : OrderEvent) : Order :=
  let s1 := s.apply e
  { s1 with
    version := s1.version + 1
    uncommittedEvents := s1.uncommittedEvents ++ [e] }

/-- Source `Order.create`: total amount is the sum of the given items' `totalPrice`;
the event currency is the first item's currency, defaulting to "USD" for an
empty or falsy (empty-string) value. -/
def Order.create (id userId : String) (items : List OrderItemM)
    (shippingAddress billingAddress : OrderAddress) (paymentMethod : String) : Order :=
  let totalAmount := (items.map (fun it => it.totalPrice)).sum
  let currency :=
    match items.head? with
    | some it => if it.currency = "" then "USD" else it.currency
    | none => "USD"
  (Order.init id).applyEvent
    (.orderCreated userId
      (items.map (fun it =>
        { productId := it.productId, quantity := it.quantity, price := it.unitPrice,
          sku := it.sku }))
      totalAmount currency shippingAddress billingAddress paymentMethod)

/-- Source `Order.fromEvents`. -/
def Order.fromEvents (id : String) (events : List OrderEvent) : Order :=
  events.foldl Order.applyEvent (Order.init id)

/-- Source `Order.confirm`. -/
def Order.confirm (s : Order) (confirmedBy : String) : Except String Order :=
  if s.status ≠ .pending then
    .error "Order can only be confirmed when in pending status"
  else
    .ok (s.applyEvent (.orderConfirmed confirmedBy))

/-- Source `Order.requestPayment`. -/
def Order.requestPayment (s : Order) (paymentId : String) (amount : Int)
    (currency : String) : Except String Order :=
  if s.status ≠ .confirmed then
    .error "Order can only request payment when confirmed"
  else
    .ok (s.applyEvent (.orderPaymentRequested paymentId amount currency s.paymentMethod))

/-- Source `Order.markAsPaid`. -/
def Order.markAsPaid (s : Order) (paymentId transactionId : String) (amount : Int)
    (currency : String) : Except String Order :=
  if s.status ≠ .payment_pending then
    .error "Order can only be marked as paid when payment is pending"
  else
    .ok (s.applyEvent (.orderPaid paymentId transactionId amount currency))

/-- Source `Order.markPaymentFailed`. -/
def Order.markPaymentFailed (s : Order) (paymentId reason : String)
    (errorCode : Option String) : Except String Order :=
  if s.status ≠ .payment_pending then
    .error "Order can only mark payment failed when payment is pending"
  else
    .ok (s.applyEvent (.orderPaymentFailed paymentId reason errorCode))

/-- Source `Order.ship`. -/
def Order.ship (s : Order) (trackingNumber carrier : String) : Except String Order :=
  if s.status ≠ .paid then
    .error "Order can only be shipped when paid"
  else
    .ok (s.applyEvent (.orderShipped trackingNumber carrier))

/-- Source `Order.deliver`. -/
def Order.deliver (s : Order) (deliveredTo : String) (signature : Option String) :
    Except String Order :=
  if s.status ≠ .shipped then
    .error "Order can only be delivered when shipped"
  else
    .ok (s.applyEvent (.orderDelivered deliveredTo signature))

/-- Source `Order.cancel`: allowed from any status except cancelled, delivered,
refunded. -/
def Order.cancel (s : Order) (cancelledBy reason : String) (refundAmount : Option Int) :
    Except String Order :=
  if s.status = .cancelled ∨ s.status = .delivered ∨ s.status = .refunded then
    .error "Order cannot be cancelled in current status"
  else
    .ok (s.applyEvent (.orderCancelled cancelledBy reason refundAmount))

/-- Source `Order.refund`. -/
def Order.refund (s : Order) (refundId : String) (refundAmount : Int)
    (currency reason refundMethod : String) : Except String Order :=
  if s.status ≠ .paid ∧ s.status ≠ .shipped ∧ s.status ≠ .delivered then
    .error "Order can only be refunded when paid, shipped, or delivered"
  else
    .ok (s.applyEvent (.orderRefunded refundId refundAmount currency reason refundMethod))

/-- Source `Order.updateItemQuantity`. -/
def Order.updateItemQuantity (s : Order) (itemId : String) (newQuantity : Int) :
    Except String Order :=
  if s.status = .cancelled ∨ s.status = .delivered ∨ s.status = .refunded then
    .error "Cannot update items in current order status"
  else
    match mapGet s.items itemId with
    | none => .error "Order item not found"
    | some item =>
        .ok (s.applyEvent
          (.orderItemUpdated itemId item.productId newQuantity item.unitPrice))

/-- Source `Order.removeItem`. -/
def Order.removeItem (s : Order) (itemId : String) (reason : Option String) :
    Except String Order :=
  if s.status = .cancelled ∨ s.status = .delivered ∨ s.status = .refunded then
    .error "Cannot remove items in current order status"
  else
    match mapGet s.items itemId with
    | none => .error "Order item not found"
    | some item => .ok (s.applyEvent (.orderItemRemoved itemId item.productId reason))

/-- Source `Order.updateAddress`. -/
def Order.updateAddress (s : Order) (addressType : AddressType)
    (newAddress : OrderAddress) : Except String Order :=
  if s.status = .cancelled ∨ s.status = .delivered ∨ s.status = .refunded then
    .error "Cannot update address in current order status"
  else
    let oldAddress :=
      match addressType with
      | .shipping => s.shippingAddress
      | .billing => s.billingAddress
    .ok (s.applyEvent (.orderAddressUpdated addressType oldAddress newAddress))

/-! ## Payment aggregate

Source: `packages/payment-service/src/domain/aggregates/Payment.ts`.  The
untyped `paymentDetails` / `gatewayResponse` JSON blobs are passthrough data
not read by any branch and are omitted. -/

inductive PaymentStatus : Type
  | pending
  | processing
  | completed
  | failed
  | cancelled
  | refunded
deriving DecidableEq, Repr

/-- The payment event variants dispatched in `Payment.apply`. -/
inductive PayEvent : Type
  | paymentRequested (orderId userId : String) (amount : Int)
      (currency paymentMethod : String)
  | paymentProcessed (orderId transactionId : String) (amount : Int)
      (currency paymentMethod : String)
  | paymentFailed (orderId failureReason errorCode : String)
  | paymentRefunded (orderId refundId : String) (refundAmount : Int)
      (currency refundReason refundMethod : String)
  | paymentCancelled (orderId cancelledBy reason : String)
  | unknownEvent (eventType : String)
deriving DecidableEq, Repr

/-- In-memory state of the `Payment` aggregate class. -/
structure Payment : Type where
  id : String
  orderId : String
  userId : String
  amount : Int
  currency : String
  paymentMethod : String
  status : PaymentStatus
  transactionId : Option String
  failureReason : Option String
  errorCode : Option String
  refundId : Option String
  refundAmount : Option Int
  refundReason : Option String
  refundMethod : Option String
  version : Nat
  uncommittedEvents : List PayEvent
deriving DecidableEq, Repr

/-- The `constructor(id)` defaults of `Payment`. -/
def Payment.init (id : String) : Payment :=
  { id := id
    orderId := ""
    userId := ""
    amount := 0
    currency := "USD"
    paymentMethod := ""
    status := .pending
    transactionId := none
    failureReason := none
    errorCode := none
    refundId := none
    refundAmount := none
    refundReason := none
    refundMethod := none
    version := 0
    uncommittedEvents := [] }

/-- Source `Payment.apply`. -/
def Payment.apply (s : Payment) (e : PayEvent) : Payment :=
  match e with
  | .paymentRequested orderId userId amount currency paymentMethod =>
      { s with
        orderId := orderId
        userId := userId
        amount := amount
        currency := currency
        paymentMethod := paymentMethod
        status := .pending }
  | .paymentProcessed _ transactionId _ _ _ =>
      { s with status := .completed, transactionId := some transactionId }
  | .paymentFailed _ failureReason errorCode =>
      { s with
        status := .failed
        failureReason := some failureReason
        errorCode := some errorCode }
  | .paymentRefunded _ refundId refundAmount _ refundReason refundMethod =>
      { s with
        status := .refunded
        refundId := some refundId
        refundAmount := some refundAmount
        refundReason := some refundReason
        refundMethod := some refundMethod }
  | .paymentCancelled _ _ _ => { s with status := .cancelled }
  | .unknownEvent _ => s

/-- The private `applyEvent` helper of `Payment`. -/
def Payment.applyEvent (s : Payment) (e : PayEvent) : Payment :=
  let s1 := s.apply e
  { s1 with
    version := s1.version + 1
    uncommittedEvents := s1.uncommittedEvents ++ [e] }

/-- Source `Payment.fromEvents`. -/
def Payment.fromEvents (id : String) (events : List PayEvent) : Payment :=
  events.foldl Payment.applyEvent (Payment.init id)

/-- The order item of the spec's concrete order scenario, after the
`createOrder` command handler has converted `{productId, quantity: 2,
price: 10, sku}` into `OrderItemData` (`unitPrice = 10`,
`totalPrice = 10 * 2`). -/
def scenarioItem : OrderItemM :=
  { id := "ord1-p1", productId := "p1", sku := "S1", name := "Widget",
    quantity := 2, unitPrice := 10, totalPrice := 20, currency := "USD" }

def scenarioAddress : OrderAddress :=
  { street := "1 Main St", city := "Springfield", state := "IL", zipCode := "62701",
    country := "US", phone := none, email := none }

/-! ## Product aggregate

Source: `packages/product-service/src/domain/aggregates/Product.ts` with the
`ProductPrice` / `ProductAttributes` value objects.  Attribute values are
modelled as strings (`updateAttribute` stores with type tag "string"). -/

/-- The product event variants dispatched in `Product.apply`. -/
inductive ProductEvent : Type
  | productCreated (name description : String) (price : Int) (categoryId sku : String)
      (images : List String) (attributes : List (String × String)) (isActive : Bool)
  | productUpdated (name description categoryId : Option String)
      (images : Option (List String)) (attributes : Option (List (String × String)))
      (isActive : Option Bool)
  | productPriceChanged (oldPrice newPrice : Int) (reason : Option String)
  | productDiscontinued (reason : Option String)
  | productReactivated
  | productStockUpdated (oldStock newStock : Int) (changeReason : String)
  | productCategoryChanged (oldCategoryId newCategoryId : String)
  | productImageAdded (imageUrl : String) (isPrimary : Bool)
  | productImageRemoved (imageUrl : String)
  | productAttributeUpdated (attributeKey : String) (oldValue : Option String)
      (newValue : String)
  | unknownEvent (eventType : String)
deriving DecidableEq, Repr

/-- In-memory state of the `Product` aggregate class (`ProductPrice` is its
amount; the currency is always "USD" in every constructor call). -/
structure Product : Type where
  id : String
  name : String
  description : String
  price : Int
  categoryId : String
  sku : String
  images : List String
  attributes : List (String × String)
  isActive : Bool
  stock : Int
  version : Nat
  uncommittedEvents : List ProductEvent
deriving DecidableEq, Repr

/-- The field assignments of `constructor(id)` of `Product`.  In the source
the constructor also builds a `ProductPrice` value object with amount 0,
which the Joi `positive()` rule rejects, so `new Product(id)` always throws
`Invalid product price`; that throwing path is modelled separately by
`Product.mkNew`, while `Product.init` carries only the assigned state. -/
def Product.init (id : String) : Product :=
  { id := id
    name := ""
    description := ""
    price := 0
    categoryId := ""
    sku := ""
    images := []
    attributes := []
    isActive := false
    stock := 0
    version := 0
    uncommittedEvents := [] }

/-- Source `Product.apply`. -/
def Product.apply (s : Product) (e : ProductEvent) : Product :=
  match e with
  | .productCreated name description price categoryId sku images attributes isActive =>
      { s with
        name := name
        description := description
        price := price
        categoryId := categoryId
        sku := sku
        images := images
        attributes := attributes
        isActive := isActive }
  | .productUpdated name description categoryId images attributes isActive =>
      { s with
        name := name.getD s.name
        description := description.getD s.description
        categoryId := categoryId.getD s.categoryId
        images := images.getD s.images
        attributes := attributes.getD s.attributes
        isActive := isActive.getD s.isActive }
  | .productPriceChanged _ newPrice _ => { s with price := newPrice }
  | .productDiscontinued _ => { s with isActive := false }
  | .productReactivated => { s with isActive := true }
  | .productStockUpdated _ newStock _ => { s with stock := newStock }
  | .productCategoryChanged _ newCategoryId => { s with categoryId := newCategoryId }
  | .productImageAdded imageUrl _ => { s with images := s.images ++ [imageUrl] }
  | .productImageRemoved imageUrl =>
      { s with images := s.images.filter (fun img => img != imageUrl) }
  | .productAttributeUpdated attributeKey _ newValue =>
      { s with attributes := mapSet s.attributes attributeKey newValue }
  | .unknownEvent _ => s

/-- The private `applyEvent` helper of `Product`. -/
def Product.applyEvent (s : Product) (e : ProductEvent) : Product :=
  let s1 := s.apply e
  { s1 with
    version := s1.version + 1
    uncommittedEvents := s1.uncommittedEvents ++ [e] }

/-- Source `Product.create` (sets `isActive: true`). -/
def Product.create (id name description : String) (price : Int) (categoryId sku : String)
    (images : List String) (attributes : List (String × String)) : Product :=
  (Product.init id).applyEvent
    (.productCreated name description price categoryId sku images attributes true)

/-- Source `Product.fromEvents`. -/
def Product.fromEvents (id : String) (events : List ProductEvent) : Product :=
  events.foldl Product.applyEvent (Product.init id)

/-- Source `Product.updateProduct`: guarded by `isActive`. -/
def Product.updateProduct (s : Product) (name description categoryId : Option String)
    (images : Option (List String)) (attributes : Option (List (String × String)))
    (isActive : Option Bool) : Except String Product :=
  if !s.isActive then
    .error "Cannot update a discontinued product"
  else
    .ok (s.applyEvent (.productUpdated name description categoryId images attributes
      isActive))

/-- Source `Product.changePrice`: guarded by `isActive` and positivity. -/
def Product.changePrice (s : Product) (newPrice : Int) (reason : Option String) :
    Except String Product :=
  if !s.isActive then
    .error "Cannot change price of a discontinued product"
  else if newPrice ≤ 0 then
    .error "Price must be greater than zero"
  else
    .ok (s.applyEvent (.productPriceChanged s.price newPrice reason))

/-- Source `Product.discontinue`. -/
def Product.discontinue (s : Product) (reason : Option String) : Except String Product :=
  if !s.isActive then
    .error "Product is already discontinued"
  else
    .ok (s.applyEvent (.productDiscontinued reason))

/-- Source `Product.reactivate`. -/
def Product.reactivate (s : Product) : Except String Product :=
  if s.isActive then
    .error "Product is already active"
  else
    .ok (s.applyEvent .productReactivated)

/-- Source `Product.updateStock`: note the source checks only non-negativity — there
is no `isActive` guard. -/
def Product.updateStock (s : Product) (newStock : Int) (changeReason : String) :
    Except String Product :=
  if newStock < 0 then
    .error "Stock cannot be negative"
  else
    .ok (s.applyEvent (.productStockUpdated s.stock newStock changeReason))

/-- Source `Product.changeCategory`: guarded by `isActive`. -/
def Product.changeCategory (s : Product) (newCategoryId : String) :
    Except String Product :=
  if !s.isActive then
    .error "Cannot change category of a discontinued product"
  else
    .ok (s.applyEvent (.productCategoryChanged s.categoryId newCategoryId))

/-- Source `Product.addImage`: guarded by `isActive`. -/
def Product.addImage (s : Product) (imageUrl : String) (isPrimary : Bool) :
    Except String Product :=
  if !s.isActive then
    .error "Cannot add image to a discontinued product"
  else
    .ok (s.applyEvent (.productImageAdded imageUrl isPrimary))

/-- Source `Product.removeImage`: note the source checks only that the image exists —
there is no `isActive` guard. -/
def Product.removeImage (s : Product) (imageUrl : String) : Except String Product :=
  if !s.images.contains imageUrl then
    .error "Image not found"
  else
    .ok (s.applyEvent (.productImageRemoved imageUrl))

/-- Source `Product.updateAttribute`: guarded by `isActive`. -/
def Product.updateAttribute (s : Product) (key value : String) :
    Except String Product :=
  if !s.isActive then
    .error "Cannot update attributes of a discontinued product"
  else
    .ok (s.applyEvent (.productAttributeUpdated key (mapGet s.attributes key) value))

/-! ## PostgreSQL event store

Source: `packages/shared/src/events/base/EventStore.ts`
(`PostgreSQLEventStore`).  The `events` table is a list in insertion order;
row ids come from `gen_random_uuid()` and timestamps from `NOW()`, both
supplied here by oracle functions of the insertion index. -/

/-- One row of the `events` table; `ε` is the JSONB payload type. -/
structure StoredRow (ε : Type) : Type where
  id : Nat
  aggregateId : String
  eventType : String
  eventData : ε
  version : Nat
  timestamp : Nat
deriving DecidableEq, Repr

/-- Source `SELECT COALESCE(MAX(version), 0) FROM events WHERE aggregate_id = $1`. -/
def maxVersion {ε : Type} (store : List (StoredRow ε)) (aggregateId : String) : Nat :=
  ((store.filter (fun r => r.aggregateId == aggregateId)).map
    (fun r => r.version)).foldl Nat.max 0

/-- The insert loop of `saveEvents`: the event at 0-based offset `i` is stored
with `version = expectedVersion + i + 1`. -/
def insertEvents {ε : Type} (aggregateId : String) (expectedVersion : Nat)
    (freshId freshTs : Nat → Nat) : Nat → List (String × ε) → List (StoredRow ε)
  | _, [] => []
  | i, e :: rest =>
      { id := freshId i
        aggregateId := aggregateId
        eventType := e.1
        eventData := e.2
        version := expectedVersion + i + 1
        timestamp := freshTs i } ::
        insertEvents aggregateId expectedVersion freshId freshTs (i + 1) rest

/-- Source `saveEvents`: inside one transaction, check the current max version
against `expectedVersion` and either fail the whole batch or append every
event. -/
def saveEvents {ε : Type} (store : List (StoredRow ε)) (aggregateId : String)
    (events : List (String × ε)) (expectedVersion : Nat) (freshId freshTs : Nat → Nat) :
    Except String (List (StoredRow ε)) :=
  let currentVersion := maxVersion store aggregateId
  if currentVersion ≠ expectedVersion then
    .error ("Concurrency conflict: expected version " ++ toString expectedVersion ++
      ", but current version is " ++ toString currentVersion)
  else
    .ok (store ++ insertEvents aggregateId expectedVersion freshId freshTs 0 events)

/-- The transaction wrapper: COMMIT yields the new table, ROLLBACK leaves the
table exactly as it was and surfaces the error. -/
def runSave {ε : Type} (store : List (StoredRow ε)) (aggregateId : String)
    (events : List (String × ε)) (expectedVersion : Nat) (freshId freshTs : Nat → Nat) :
    List (StoredRow ε) × Option String :=
  match saveEvents store aggregateId events expectedVersion freshId freshTs with
  | .ok store1 => (store1, none)
  | .error e => (store, some e)

/-- Source `ORDER BY timestamp ASC, version ASC` as a relation on rows. -/
def rowLe {ε : Type} (a b : StoredRow ε) : Prop :=
  a.timestamp < b.timestamp ∨ (a.timestamp = b.timestamp ∧ a.version ≤ b.version)

instance {ε : Type} : DecidableRel (@rowLe ε) := fun a b =>
  inferInstanceAs (Decidable (a.timestamp < b.timestamp ∨
    (a.timestamp = b.timestamp ∧ a.version ≤ b.version)))

instance {ε : Type} : IsTotal (StoredRow ε) rowLe :=
  ⟨fun a b => by unfold rowLe; omega⟩

instance {ε : Type} : IsTrans (StoredRow ε) rowLe :=
  ⟨fun a b c hab hbc => by unfold rowLe at hab hbc ⊢; omega⟩

/-- Source `getAllEvents(fromPosition, limit)`: `WHERE id > $1 ORDER BY timestamp
ASC, version ASC LIMIT $2`. -/
def getAllEvents {ε : Type} (store : List (StoredRow ε)) (fromPosition limit : Nat) :
    List (StoredRow ε) :=
  ((store.filter (fun r => decide (fromPosition < r.id))).insertionSort rowLe).take limit

/-- Source `getEventsByType(eventType, fromPosition, limit)`: adds
`event_type = $1` to the filter. -/
def getEventsByType {ε : Type} (store : List (StoredRow ε)) (eventType : String)
    (fromPosition limit : Nat) : List (StoredRow ε) :=
  ((store.filter (fun r => r.eventType == eventType && decide (fromPosition < r.id))
    ).insertionSort rowLe).take limit

def c2row : StoredRow Nat :=
  { id := 11
    aggregateId := "agg"
    eventType := "E1"
    eventData := 0
    version := 1
    timestamp := 5 }

def c2store : List (StoredRow Nat) := [c2row]

def rowA : StoredRow Nat :=
  { id := 3
    aggregateId := "a"
    eventType := "E"
    eventData := 0
    version := 1
    timestamp := 5 }

def rowB : StoredRow Nat :=
  { id := 1
    aggregateId := "b"
    eventType := "E"
    eventData := 0
    version := 1
    timestamp := 5 }

def rowC : StoredRow Nat :=
  { id := 1
    aggregateId := "c"
    eventType := "E"
    eventData := 0
    version := 1
    timestamp := 9 }

def rowD : StoredRow Nat :=
  { id := 2
    aggregateId := "d"
    eventType := "E"
    eventData := 0
    version := 1
    timestamp := 3 }

/-- The table after inserting rowA then rowB (colliding timestamps, ids from
`gen_random_uuid()` not monotone in insertion order). -/
def storeX : List (StoredRow Nat) := [rowA, rowB]

/-- The table after inserting rowC then rowD (timestamps out of insertion
order). -/
def storeY : List (StoredRow Nat) := [rowC, rowD]

/-! ## Repository layer

Sources: `OrderRepository.ts`, `InventoryRepository.ts` (both compute
`expectedVersion = version - count(uncommittedEvents)` and never call
`markEventsAsCommitted`), and `ProductRepository.ts`
(`EventSourcedProductRepository`, which passes `product.getVersion()` as the
expected version and does call `markEventsAsCommitted`). -/

/-- Source `event.eventType` of an order event (the class name stored by the event
store). -/
def OrderEvent.eventType : OrderEvent → String
  | .orderCreated _ _ _ _ _ _ _ => "OrderCreated"
  | .orderConfirmed _ => "OrderConfirmed"
  | .orderPaymentRequested _ _ _ _ => "OrderPaymentRequested"
  | .orderPaid _ _ _ _ => "OrderPaid"
  | .orderPaymentFailed _ _ _ => "OrderPaymentFailed"
  | .orderShipped _ _ => "OrderShipped"
  | .orderDelivered _ _ => "OrderDelivered"
  | .orderCancelled _ _ _ => "OrderCancelled"
  | .orderRefunded _ _ _ _ _ => "OrderRefunded"
  | .orderItemUpdated _ _ _ _ => "OrderItemUpdated"
  | .orderItemRemoved _ _ _ => "OrderItemRemoved"
  | .orderStatusChanged _ => "OrderStatusChanged"
  | .orderAddressUpdated _ _ _ => "OrderAddressUpdated"
  | .unknownEvent t => t

/-- Source `event.eventType` of an inventory event. -/
def InvEvent.eventType : InvEvent → String
  | .inventoryItemCreated _ _ _ _ _ => "InventoryItemCreated"
  | .stockUpdated _ _ _ _ _ => "StockUpdated"
  | .stockReserved _ _ _ _ => "StockReserved"
  | .stockReleased _ _ _ _ => "StockReleased"
  | .stockAllocated _ _ _ => "StockAllocated"
  | .lowStockAlert _ _ _ => "LowStockAlert"
  | .outOfStockAlert _ => "OutOfStockAlert"
  | .inventoryThresholdUpdated _ _ _ => "InventoryThresholdUpdated"
  | .unknownEvent t => t

/-- Source `event.eventType` of a product event. -/
def ProductEvent.eventType : ProductEvent → String
  | .productCreated _ _ _ _ _ _ _ _ => "ProductCreated"
  | .productUpdated _ _ _ _ _ _ => "ProductUpdated"
  | .productPriceChanged _ _ _ => "ProductPriceChanged"
  | .productDiscontinued _ => "ProductDiscontinued"
  | .productReactivated => "ProductReactivated"
  | .productStockUpdated _ _ _ => "ProductStockUpdated"
  | .productCategoryChanged _ _ => "ProductCategoryChanged"
  | .productImageAdded _ _ => "ProductImageAdded"
  | .productImageRemoved _ => "ProductImageRemoved"
  | .productAttributeUpdated _ _ _ => "ProductAttributeUpdated"
  | .unknownEvent t => t

/-- Source `PostgreSQLEventStoreOrderRepository.save`: early-return on no events,
`expectedVersion = version - count`, store save; `markEventsAsCommitted` is
never called, so the aggregate is returned as-is. -/
def orderRepoSave (store : List (StoredRow OrderEvent)) (o : Order)
    (freshId freshTs : Nat → Nat) :
    Except String (List (StoredRow OrderEvent) × Order) :=
  let events := o.uncommittedEvents
  if events.length = 0 then
    .ok (store, o)
  else
    match saveEvents store o.id (events.map (fun e => (e.eventType, e)))
        (o.version - events.length) freshId freshTs with
    | .error e => .error e
    | .ok store1 => .ok (store1, o)

/-- Source `PostgreSQLEventStoreInventoryRepository.save`: same shape as the order
repository — no `markEventsAsCommitted` call. -/
def inventoryRepoSave (store : List (StoredRow InvEvent)) (inv : Inventory)
    (freshId freshTs : Nat → Nat) :
    Except String (List (StoredRow InvEvent) × Inventory) :=
  let events := inv.uncommittedEvents
  if events.length = 0 then
    .ok (store, inv)
  else
    match saveEvents store inv.id (events.map (fun e => (e.eventType, e)))
        (inv.version - events.length) freshId freshTs with
    | .error e => .error e
    | .ok store1 => .ok (store1, inv)

/-- Source `EventSourcedProductRepository.save`: passes `product.getVersion()` (not
version minus count) as the expected version and then calls
`markEventsAsCommitted`. -/
def productRepoSave (store : List (StoredRow ProductEvent)) (p : Product)
    (freshId freshTs : Nat → Nat) :
    Except String (List (StoredRow ProductEvent) × Product) :=
  let events := p.uncommittedEvents
  if events.length > 0 then
    match saveEvents store p.id (events.map (fun e => (e.eventType, e))) p.version
        freshId freshTs with
    | .error e => .error e
    | .ok store1 => .ok (store1, { p with uncommittedEvents := [] })
  else
    .ok (store, p)

def c3order : Order :=
  Order.create "ord3" "u3" [] scenarioAddress scenarioAddress "card"

def c3inventory : Inventory := Inventory.create "inv3" "p3" "sku3" 5 2

def c3product : Product := Product.create "pr3" "Desk" "A desk" 10 "cat" "SKU-D" [] []

/-- Concrete starting inventory for the invariant witness run. -/
def c4start : Inventory := Inventory.create "inv1" "p1" "sku1" 10 5

/-- A command sequence satisfying the amended side conditions. -/
def c4cmds : List InvCmd :=
  [.reserve "o1" 4 99, .allocate "o1" 4, .reserve "o1" 2 99, .release "o1" "expired"]

/-- Concrete inventory for the double-reservation witness. -/
def c10inv : Inventory := Inventory.create "inv1" "p1" "sku1" 10 5

def c10s1 : Inventory := c10inv.applyEvent (.stockReserved c10inv.productId "o1" 2 99)

def c10s2 : Inventory := c10s1.applyEvent (.stockReserved c10s1.productId "o1" 3 98)

/-! ## Joi validation of the value objects

The `OrderAddress`, `OrderItem` and `ProductPrice` value-object constructors
run a Joi schema over their input and throw on failure.  Critically, the
`Order` and `Product` aggregate constructors invoke them on their own
defaults, which the schemas reject: in the source, `new Order(id)` and
`new Product(id)` always throw.  The validators below model each schema's
rejecting rules; Joi convert-mode transformations (`uppercase()`,
`precision(2)`) alter values rather than reject and are not modelled, the
optional `email()` format rule is elided (no modelled input supplies an
email), and the Joi detail the source appends after the colon of each error
message is elided. -/

/-- Bounds check for a Joi `string().min(lo).max(hi).required()` rule (Joi
rejects the empty string by default, which `min(1)` also enforces). -/
def strLenOk (s : String) (lo hi : Nat) : Bool :=
  decide (lo ≤ s.length ∧ s.length ≤ hi)

def isHexDigit (c : Char) : Bool :=
  c.isDigit || ('a' ≤ c && c ≤ 'f') || ('A' ≤ c && c ≤ 'F')

/-- Canonical dashed 8-4-4-4-12 hexadecimal UUID form accepted by Joi's
`string().uuid()` rule. -/
def isUuidFormat (s : String) : Bool :=
  let cs := s.toList
  decide (cs.length = 36) &&
    cs.enum.all (fun p =>
      if p.1 = 8 ∨ p.1 = 13 ∨ p.1 = 18 ∨ p.1 = 23 then p.2 == '-' else isHexDigit p.2)

/-- Source `OrderAddress` constructor: validate the data against
`OrderAddress.schema` (five required strings with `min(1)` and max bounds,
optional phone of at most 20 characters) and throw
`Invalid order address` on failure. -/
def OrderAddress.validate (d : OrderAddress) : Except String OrderAddress :=
  if strLenOk d.street 1 255 && strLenOk d.city 1 100 && strLenOk d.state 1 100 &&
      strLenOk d.zipCode 1 20 && strLenOk d.country 1 100 &&
      (match d.phone with
        | some p => decide (p.length ≤ 20)
        | none => true) then
    .ok d
  else
    .error "Invalid order address"

/-- Source `OrderItem` constructor: validate against `OrderItem.schema`
(uuid `id` and `productId`, non-empty bounded `sku` and `name`, integer
quantity at least 1, positive unit and total prices, 3-letter currency) and
throw `Invalid order item` on failure. -/
def OrderItem.validate (d : OrderItemM) : Except String OrderItemM :=
  if isUuidFormat d.id && isUuidFormat d.productId &&
      strLenOk d.sku 1 100 && strLenOk d.name 1 255 &&
      decide (1 ≤ d.quantity) && decide (0 < d.unitPrice) &&
      decide (0 < d.totalPrice) && decide (d.currency.length = 3) then
    .ok d
  else
    .error "Invalid order item"

/-- Source `ProductPrice` constructor: `amount` must satisfy
`Joi.number().positive()` — zero is rejected — and `currency` must be a
3-letter string; the optional `compareAtPrice` / `discountPercentage` fields
are absent in every constructor call in the source and are elided.  Throws
`Invalid product price` on failure. -/
def ProductPrice.validate (amount : Int) (currency : String) :
    Except String (Int × String) :=
  if decide (0 < amount) && decide (currency.length = 3) then
    .ok (amount, currency)
  else
    .error "Invalid product price"

/-- Source `ProductAttributes` constructor: the `attributes` array is
required and an empty list passes the schema, so the constructor's
`{attributes: []}` default succeeds. -/
def ProductAttributes.validate (attributes : List (String × String)) :
    Except String (List (String × String)) :=
  .ok attributes

/-- Source `new Order(id)` including its value-object validation: the
constructor builds `new OrderAddress` over all-empty strings for both
addresses, and the empty strings fail the schema's `min(1)` rules, so
construction always throws `Invalid order address`. -/
def Order.mkNew (id : String) : Except String Order := do
  let shippingAddress ← OrderAddress.validate emptyAddress
  let billingAddress ← OrderAddress.validate emptyAddress
  .ok { Order.init id with
    shippingAddress := shippingAddress
    billingAddress := billingAddress }

/-- Source `Order.create` including the constructor's validation: the
`new Order(id)` call runs — and throws — before the OrderCreated event is
synthesized. -/
def Order.createChecked (id userId : String) (items : List OrderItemM)
    (shippingAddress billingAddress : OrderAddress) (paymentMethod : String) :
    Except String Order := do
  let o ← Order.mkNew id
  let totalAmount := (items.map (fun it => it.totalPrice)).sum
  let currency :=
    match items.head? with
    | some it => if it.currency = "" then "USD" else it.currency
    | none => "USD"
  .ok (o.applyEvent
    (.orderCreated userId
      (items.map (fun it =>
        { productId := it.productId, quantity := it.quantity, price := it.unitPrice,
          sku := it.sku }))
      totalAmount currency shippingAddress billingAddress paymentMethod))

/-- Source `new Product(id)` including its value-object validation: the
constructor builds `new ProductPrice` with amount 0, which fails the
schema's `positive()` rule, so construction always throws
`Invalid product price`. -/
def Product.mkNew (id : String) : Except String Product := do
  let _price ← ProductPrice.validate 0 "USD"
  let _attributes ← ProductAttributes.validate []
  .ok (Product.init id)

/-- Source `Product.create` including the constructor's validation. -/
def Product.createChecked (id name description : String) (price : Int)
    (categoryId sku : String) (images : List String)
    (attributes : List (String × String)) : Except String Product := do
  let p ← Product.mkNew id
  .ok (p.applyEvent
    (.productCreated name description price categoryId sku images attributes true))

theorem mapGet_nil {α : Type} (k : String) : mapGet ([] : List (String × α)) k = none := rfl

theorem mapGet_cons {α : Type} (p : String × α) (m : List (String × α)) (k : String) :
    mapGet (p :: m) k = if p.1 == k then some p.2 else mapGet m k := by
  by_cases h : p.1 = k
  · simp [mapGet, List.find?, h]
  · simp only [mapGet, List.find?]
    have hb : (p.1 == k) = false := by
      simp [h]
    simp [hb]

theorem mapGet_none_any_eq_false {α : Type} {m : List (String × α)} {k : String}
    (h : mapGet m k = none) : m.any (fun p => p.1 == k) = false := by
  induction m with
  | nil => rfl
  | cons p t ih =>
    rw [mapGet_cons] at h
    by_cases hpk : p.1 = k
    · simp [hpk] at h
    · have hb : (p.1 == k) = false := by simp [hpk]
      simp only [hb, if_false] at h
      simp [List.any_cons, hb, ih h]

theorem mapSet_of_get_none {α : Type} {m : List (String × α)} {k : String}
    (h : mapGet m k = none) (v : α) : mapSet m k v = m ++ [(k, v)] := by
  unfold mapSet
  simp [mapGet_none_any_eq_false h]

theorem checkStockAlerts_currentStock (s : Inventory) :
    (s.checkStockAlerts).currentStock = s.currentStock := by
  unfold Inventory.checkStockAlerts
  by_cases h0 : s.getAvailableStock = 0
  · simp [h0, Inventory.applyEvent, Inventory.apply]
  · by_cases hlow : s.getAvailableStock ≤ s.lowStockThreshold
    · simp [h0, hlow, Inventory.applyEvent, Inventory.apply]
    · simp [h0, hlow]

theorem activeSum_append (m l : List (String × StockReservation)) :
    activeSum (m ++ l) = activeSum m + activeSum l := by
  simp [activeSum]

theorem mapGet_some_any {α : Type} {m : List (String × α)} {k : String} {r : α}
    (h : mapGet m k = some r) : m.any (fun p => p.1 == k) = true := by
  induction m with
  | nil => simp [mapGet] at h
  | cons p t ih =>
    rw [mapGet_cons] at h
    by_cases hpk : p.1 = k
    · simp [List.any_cons, hpk]
    · have hb : (p.1 == k) = false := by simp [hpk]
      simp only [hb, if_false] at h
      simp [List.any_cons, hb, ih h]

theorem mapGet_none_not_mem_keys {α : Type} {m : List (String × α)} {k : String}
    (h : mapGet m k = none) : k ∉ m.map Prod.fst := by
  intro hmem
  induction m with
  | nil => simp at hmem
  | cons p t ih =>
    rw [mapGet_cons] at h
    by_cases hpk : p.1 = k
    · simp [hpk] at h
    · have hb : (p.1 == k) = false := by simp [hpk]
      simp only [hb, if_false] at h
      rcases List.mem_cons.mp hmem with h1 | h2
      · exact hpk h1.symm
      · exact ih h h2

theorem mapSet_keys {α : Type} (m : List (String × α)) (k : String) (v : α) :
    (mapSet m k v).map Prod.fst =
      if m.any (fun p => p.1 == k) then m.map Prod.fst else m.map Prod.fst ++ [k] := by
  by_cases h : m.any (fun p => p.1 == k) = true
  · rw [if_pos h]
    simp only [mapSet, h, if_true]
    rw [List.map_map]
    refine List.map_congr_left ?_
    intro p _
    by_cases hpk : p.1 = k <;> simp [hpk]
  · rw [if_neg h]
    simp only [mapSet, h, if_false]
    simp

theorem nodup_keys_mapSet {α : Type} {m : List (String × α)} {k : String} (v : α)
    (hnd : (m.map Prod.fst).Nodup) : ((mapSet m k v).map Prod.fst).Nodup := by
  rw [mapSet_keys]
  by_cases h : m.any (fun p => p.1 == k) = true
  · rw [if_pos h]; exact hnd
  · have hnone : mapGet m k = none := by
      cases hg : mapGet m k with
      | none => rfl
      | some r => exact absurd (mapGet_some_any hg) h
    have hk : k ∉ m.map Prod.fst := mapGet_none_not_mem_keys hnone
    rw [if_neg h]
    refine List.Nodup.append hnd (List.nodup_singleton k) ?_
    intro a ha hak
    rw [List.mem_singleton] at hak
    subst hak
    exact hk ha

/-- Overwriting an existing key swaps that entry's contribution in the active
sum, provided keys are unique. -/
theorem activeSum_mapSet_of_get_some {m : List (String × StockReservation)}
    {k : String} {r0 : StockReservation} (v : StockReservation)
    (hnd : (m.map Prod.fst).Nodup) (h : mapGet m k = some r0) :
    activeSum (mapSet m k v) =
      activeSum m - reservationContrib r0 + reservationContrib v := by
  induction m with
  | nil => simp [mapGet] at h
  | cons p t ih =>
    rw [mapGet_cons] at h
    rw [List.map_cons] at hnd
    have hndt : (t.map Prod.fst).Nodup := (List.nodup_cons.mp hnd).2
    have hhead : p.1 ∉ t.map Prod.fst := (List.nodup_cons.mp hnd).1
    by_cases hpk : p.1 = k
    · simp only [hpk, beq_self_eq_true, if_true, Option.some.injEq] at h
      have hknott : k ∉ t.map Prod.fst := hpk ▸ hhead
      have hany : (p :: t).any (fun q => q.1 == k) = true := by
        simp [List.any_cons, hpk]
      simp only [mapSet, hany, if_true, List.map_cons, hpk, beq_self_eq_true, if_true]
      have htmap : t.map (fun q => if q.1 == k then (k, v) else q) = t := by
        refine List.map_congr_left ?_ |>.trans t.map_id
        intro q hq
        have : q.1 ≠ k := fun hqe => hknott (List.mem_map.mpr ⟨q, hq, hqe⟩)
        simp [this]
      rw [htmap]
      simp only [activeSum, List.map_cons, List.sum_cons, ← h]
      ring
    · have hb : (p.1 == k) = false := by simp [hpk]
      simp only [hb, if_false] at h
      have hany : (p :: t).any (fun q => q.1 == k) = t.any (fun q => q.1 == k) := by
        simp [List.any_cons, hb]
      have htany : t.any (fun q => q.1 == k) = true := mapGet_some_any h
      simp only [mapSet, hany, htany, if_true, List.map_cons, hb, Bool.false_eq_true,
        if_false]
      have ihh := ih hndt h
      simp only [mapSet, htany, if_true] at ihh
      simp only [activeSum, List.map_cons, List.sum_cons] at ihh ⊢
      omega

/-- Deleting an existing key removes exactly that entry's contribution,
provided keys are unique. -/
theorem activeSum_mapDelete_of_get_some {m : List (String × StockReservation)}
    {k : String} {r0 : StockReservation}
    (hnd : (m.map Prod.fst).Nodup) (h : mapGet m k = some r0) :
    activeSum (mapDelete m k) = activeSum m - reservationContrib r0 := by
  induction m with
  | nil => simp [mapGet] at h
  | cons p t ih =>
    rw [mapGet_cons] at h
    rw [List.map_cons] at hnd
    have hndt : (t.map Prod.fst).Nodup := (List.nodup_cons.mp hnd).2
    have hhead : p.1 ∉ t.map Prod.fst := (List.nodup_cons.mp hnd).1
    by_cases hpk : p.1 = k
    · simp only [hpk, beq_self_eq_true, if_true, Option.some.injEq] at h
      have hknott : k ∉ t.map Prod.fst := hpk ▸ hhead
      have htdel : mapDelete t k = t := by
        unfold mapDelete
        refine List.filter_eq_self.mpr ?_
        intro q hq
        have : q.1 ≠ k := fun hqe => hknott (List.mem_map.mpr ⟨q, hq, hqe⟩)
        simp [this]
      simp only [mapDelete, List.filter_cons, hpk, bne_self_eq_false, Bool.false_eq_true,
        if_false]
      rw [show (t.filter fun q => q.1 != k) = mapDelete t k from rfl, htdel]
      simp only [activeSum, List.map_cons, List.sum_cons, ← h]
      ring
    · have hb : (p.1 != k) = true := by simp [hpk]
      have hbeq : (p.1 == k) = false := by simp [hpk]
      simp only [hbeq, if_false] at h
      simp only [mapDelete, List.filter_cons, hb, if_true]
      have ihh := ih hndt h
      simp only [mapDelete] at ihh
      simp only [activeSum, List.map_cons, List.sum_cons] at ihh ⊢
      omega

theorem nodup_keys_mapDelete {α : Type} {m : List (String × α)} (k : String)
    (hnd : (m.map Prod.fst).Nodup) : ((mapDelete m k).map Prod.fst).Nodup :=
  List.Nodup.sublist ((List.filter_sublist m).map Prod.fst) hnd

/-- Claim C9: `updateStock` clamps the resulting `currentStock` at zero for the
change types `set` and `decrement` (`max 0 newStock` resp.
`max 0 (currentStock - newStock)`), while `increment` adds without a clamp. -/
theorem updateStock_clamps_at_zero (s : Inventory) (n : Int) (reason : String) :
    (s.updateStock n reason .set).currentStock = max 0 n ∧
    (s.updateStock n reason .decrement).currentStock = max 0 (s.currentStock - n) ∧
    (s.updateStock n reason .increment).currentStock = s.currentStock + n := by
  refine ⟨?_, ?_, ?_⟩ <;>
    simp [Inventory.updateStock, checkStockAlerts_currentStock,
      Inventory.applyEvent, Inventory.apply, Inventory.newStockValue]

theorem goodState_reserveStock {s s' : Inventory} {o : String} {q : Int} {e : Nat}
    (hg : s.goodState) (hstep : s.goodStep (.reserve o q e) = true)
    (h : s.reserveStock o q e = .ok s') : s'.goodState := by
  unfold Inventory.reserveStock at h
  by_cases h1 : q ≤ 0
  · simp [h1] at h
  by_cases h2 : s.getAvailableStock < q
  · simp [h1, h2] at h
  simp only [h1, if_false, h2, Except.ok.injEq] at h
  subst h
  have hfields :
      (s.applyEvent (.stockReserved s.productId o q e)).reservations =
        mapSet s.reservations (s.id ++ "-" ++ o)
          { id := s.id ++ "-" ++ o, orderId := o, quantity := q, expiresAt := e,
            isAllocated := false } ∧
      (s.applyEvent (.stockReserved s.productId o q e)).reservedStock =
        s.reservedStock + q := by
    constructor <;> simp [Inventory.applyEvent, Inventory.apply]
  constructor
  · rw [hfields.1]
    exact nodup_keys_mapSet _ hg.1
  · rw [hfields.1, hfields.2]
    cases hget : mapGet s.reservations (s.id ++ "-" ++ o) with
    | none =>
        rw [mapSet_of_get_none hget, activeSum_append]
        simp [activeSum, reservationContrib, hg.2]
    | some r0 =>
        have hstep2 : r0.isAllocated = true := by
          have hst := hstep
          rw [show s.goodStep (.reserve o q e) =
              (match mapGet s.reservations (s.id ++ "-" ++ o) with
                | some r => r.isAllocated
                | none => true) from rfl, hget] at hst
          exact hst
        rw [activeSum_mapSet_of_get_some _ hg.1 hget]
        simp [reservationContrib, hstep2, hg.2]

theorem goodState_releaseStock {s s' : Inventory} {o : String} {reason : String}
    (hg : s.goodState) (hstep : s.goodStep (.release o reason) = true)
    (h : s.releaseStock o reason = .ok s') : s'.goodState := by
  unfold Inventory.releaseStock at h
  cases hget : mapGet s.reservations (s.id ++ "-" ++ o) with
  | none =>
      rw [hget] at h
      exact Except.noConfusion
        (show (Except.error "Stock reservation not found" : Except String Inventory) =
          .ok s' from h)
  | some r0 =>
      rw [hget] at h
      have h2 : s.applyEvent (.stockReleased s.productId o r0.quantity reason) = s' := by
        have h3 : (Except.ok (s.applyEvent (.stockReleased s.productId o r0.quantity reason)) :
            Except String Inventory) = .ok s' := h
        exact Except.ok.inj h3
      subst h2
      have halloc : r0.isAllocated = false := by
        have hst := hstep
        rw [show s.goodStep (.release o reason) =
            (match mapGet s.reservations (s.id ++ "-" ++ o) with
              | some r => !r.isAllocated
              | none => true) from rfl, hget] at hst
        simpa using hst
      have hfields :
          (s.applyEvent (.stockReleased s.productId o r0.quantity reason)).reservations =
            mapDelete s.reservations (s.id ++ "-" ++ o) ∧
          (s.applyEvent (.stockReleased s.productId o r0.quantity reason)).reservedStock =
            s.reservedStock - r0.quantity := by
        constructor <;> simp [Inventory.applyEvent, Inventory.apply, hget]
      constructor
      · rw [hfields.1]
        exact nodup_keys_mapDelete _ hg.1
      · rw [hfields.1, hfields.2, activeSum_mapDelete_of_get_some hg.1 hget]
        simp [reservationContrib, halloc, hg.2]

theorem goodState_allocateStock {s s' : Inventory} {o : String} {q : Int}
    (hg : s.goodState) (hstep : s.goodStep (.allocate o q) = true)
    (h : s.allocateStock o q = .ok s') : s'.goodState := by
  unfold Inventory.allocateStock at h
  cases hget : mapGet s.reservations (s.id ++ "-" ++ o) with
  | none =>
      rw [hget] at h
      exact Except.noConfusion
        (show (Except.error "Stock reservation not found" : Except String Inventory) =
          .ok s' from h)
  | some r0 =>
      rw [hget] at h
      have h2 : (if r0.quantity < q then
          (Except.error "Allocation quantity cannot exceed reserved quantity" :
            Except String Inventory)
        else .ok (s.applyEvent (.stockAllocated s.productId o q))) = .ok s' := h
      by_cases hlt : r0.quantity < q
      · rw [if_pos hlt] at h2
        exact Except.noConfusion h2
      rw [if_neg hlt] at h2
      have h4 : s.applyEvent (.stockAllocated s.productId o q) = s' :=
        Except.ok.inj h2
      subst h4
      have hstep2 : (!r0.isAllocated && q == r0.quantity) = true := by
        have hst := hstep
        rw [show s.goodStep (.allocate o q) =
            (match mapGet s.reservations (s.id ++ "-" ++ o) with
              | some r => !r.isAllocated && q == r.quantity
              | none => true) from rfl, hget] at hst
        exact hst
      have hsplit : r0.isAllocated = false ∧ q = r0.quantity := by
        simpa using hstep2
      have halloc : r0.isAllocated = false := hsplit.1
      have hq : q = r0.quantity := hsplit.2
      have hfields :
          (s.applyEvent (.stockAllocated s.productId o q)).reservations =
            mapSet s.reservations (s.id ++ "-" ++ o) { r0 with isAllocated := true } ∧
          (s.applyEvent (.stockAllocated s.productId o q)).reservedStock =
            s.reservedStock - q := by
        constructor <;> simp [Inventory.applyEvent, Inventory.apply, hget]
      constructor
      · rw [hfields.1]
        exact nodup_keys_mapSet _ hg.1
      · rw [hfields.1, hfields.2, activeSum_mapSet_of_get_some _ hg.1 hget]
        simp [reservationContrib, halloc, hq, hg.2]

theorem runGood_goodState :
    ∀ (cs : List InvCmd) (s : Inventory) (sts : List Inventory),
      s.goodState → Inventory.runGood s cs = some sts → ∀ t ∈ sts, t.goodState := by
  intro cs
  induction cs with
  | nil =>
      intro s sts _ h t ht
      unfold Inventory.runGood at h
      simp only [Option.some.injEq] at h
      subst h
      simp at ht
  | cons c cs ih =>
      intro s sts hg h t ht
      unfold Inventory.runGood at h
      by_cases hstep : s.goodStep c = true
      · rw [if_pos hstep] at h
        cases hrun : s.runCmd c with
        | error e => rw [hrun] at h; simp at h
        | ok s1 =>
            rw [hrun] at h
            rcases Option.map_eq_some'.mp h with ⟨l, hl, hsts⟩
            have hg1 : s1.goodState := by
              cases c with
              | reserve o q e => exact goodState_reserveStock hg hstep hrun
              | release o r => exact goodState_releaseStock hg hstep hrun
              | allocate o q => exact goodState_allocateStock hg hstep hrun
            subst hsts
            rcases List.mem_cons.mp ht with h1 | h2
            · subst h1; exact hg1
            · exact ih s1 l hg1 hl t h2
      · rw [if_neg hstep] at h
        simp at h

theorem goodState_implies_claimedInvariant (s : Inventory) (hg : s.goodState) :
    s.claimedInvariant :=
  ⟨hg.2, rfl, le_max_left 0 _⟩

/-- Claim C4 (amended): starting from a freshly created inventory, any
sequence of accepted reserve/release/allocate commands in which reservations
are never overwritten while still unallocated, releases and allocations target
only unallocated reservations, and allocations take the full reserved
quantity, keeps the claimed invariant after every command: `reservedStock`
equals the sum of quantities of unreleased, unallocated reservations,
`availableStock = max 0 (currentStock - reservedStock)`, and `availableStock`
is never negative. -/
theorem inventory_invariant_preserved (id productId sku : String)
    (initialStock lowStockThreshold : Int) (cs : List InvCmd) (sts : List Inventory)
    (h : Inventory.runGood (Inventory.create id productId sku initialStock lowStockThreshold)
        cs = some sts) :
    ∀ t ∈ sts, t.claimedInvariant := by
  have hg0 : (Inventory.create id productId sku initialStock lowStockThreshold).goodState := by
    constructor <;>
      simp [Inventory.create, Inventory.applyEvent, Inventory.apply, Inventory.init,
        activeSum]
  intro t ht
  exact goodState_implies_claimedInvariant t (runGood_goodState cs _ sts hg0 h t ht)

/-- Claim C4 (counterexample): the code accepts a second `reserveStock` for an
order that already holds a live reservation; afterwards `reservedStock` is 5
while the active reservations sum to 3, so the claimed invariant is violated
by an accepted command sequence. -/
theorem inventory_invariant_refuted :
    (((Inventory.create "inv1" "p1" "sku1" 10 2).reserveStock "o1" 2 99).bind
        (fun s => s.reserveStock "o1" 3 99)).map
      (fun s => (s.reservedStock, activeSum s.reservations, decide s.claimedInvariant)) =
      .ok (5, 3, false) := by
  rfl

theorem inventory_invariant_preserved_witness :
    (((Inventory.runGood c4start c4cmds).getD []).getD 3
      (Inventory.init "unused")).claimedInvariant :=
  inventory_invariant_preserved "inv1" "p1" "sku1" 10 5 c4cmds
    ((Inventory.runGood c4start c4cmds).getD []) rfl
    (((Inventory.runGood c4start c4cmds).getD []).getD 3 (Inventory.init "unused"))
    (by decide)

theorem mapSet_append_single_same_key {α : Type} {m : List (String × α)} {k : String}
    (h : mapGet m k = none) (v w : α) :
    mapSet (m ++ [(k, v)]) k w = m ++ [(k, w)] := by
  unfold mapSet
  have hany : ((m ++ [(k, v)]).any fun p => p.1 == k) = true := by
    simp [List.any_append]
  rw [if_pos hany, List.map_append]
  congr 1
  · refine List.map_congr_left ?_ |>.trans m.map_id
    intro p hp
    have : p.1 ≠ k := fun he => (mapGet_none_not_mem_keys h) (List.mem_map.mpr ⟨p, hp, he⟩)
    simp [this]
  · simp

theorem filter_key_append_single {α : Type} {m : List (String × α)} {k : String}
    (h : mapGet m k = none) (v : α) :
    (m ++ [(k, v)]).filter (fun p => p.1 == k) = [(k, v)] := by
  rw [List.filter_append]
  have hm : m.filter (fun p => p.1 == k) = [] := by
    rw [List.filter_eq_nil_iff]
    intro p hp
    have : p.1 ≠ k := fun he => (mapGet_none_not_mem_keys h) (List.mem_map.mpr ⟨p, hp, he⟩)
    simp [this]
  simp [hm]

/-- Claim C10 (amended): when an order already holds a live reservation of
quantity q1, a second `reserveStock` for the same order with 0 < q2 is
accepted whenever `availableStock allows q2`; the reservations map then holds
exactly one entry for that order — the second reservation, keyed
inventoryId-orderId — while `reservedStock` has grown by q1 + q2 over the two
calls. -/
theorem reserve_twice_same_order (s : Inventory) (o : String) (q1 q2 : Int) (e1 e2 : Nat)
    (hnone : mapGet s.reservations (s.id ++ "-" ++ o) = none)
    (hq1 : 0 < q1) (hav1 : q1 ≤ s.getAvailableStock) (hq2 : 0 < q2)
    (hav2 : q2 ≤ (s.applyEvent (.stockReserved s.productId o q1 e1)).getAvailableStock) :
    s.reserveStock o q1 e1 = .ok (s.applyEvent (.stockReserved s.productId o q1 e1)) ∧
    (s.applyEvent (.stockReserved s.productId o q1 e1)).reserveStock o q2 e2 =
      .ok ((s.applyEvent (.stockReserved s.productId o q1 e1)).applyEvent
        (.stockReserved (s.applyEvent (.stockReserved s.productId o q1 e1)).productId o
          q2 e2)) ∧
    ((s.applyEvent (.stockReserved s.productId o q1 e1)).applyEvent
        (.stockReserved (s.applyEvent (.stockReserved s.productId o q1 e1)).productId o
          q2 e2)).reservations.filter (fun p => p.1 == s.id ++ "-" ++ o) =
      [(s.id ++ "-" ++ o,
        { id := s.id ++ "-" ++ o, orderId := o, quantity := q2, expiresAt := e2,
          isAllocated := false })] ∧
    ((s.applyEvent (.stockReserved s.productId o q1 e1)).applyEvent
        (.stockReserved (s.applyEvent (.stockReserved s.productId o q1 e1)).productId o
          q2 e2)).reservedStock = s.reservedStock + q1 + q2 := by
  have h1ne : ¬ q1 ≤ 0 := not_le.mpr hq1
  have h2ne : ¬ q2 ≤ 0 := not_le.mpr hq2
  have hid : (s.applyEvent (.stockReserved s.productId o q1 e1)).id = s.id := by
    simp [Inventory.applyEvent, Inventory.apply]
  have hpid : (s.applyEvent (.stockReserved s.productId o q1 e1)).productId =
      s.productId := by
    simp [Inventory.applyEvent, Inventory.apply]
  have hres : (s.applyEvent (.stockReserved s.productId o q1 e1)).reservations =
      s.reservations ++ [(s.id ++ "-" ++ o,
        { id := s.id ++ "-" ++ o, orderId := o, quantity := q1, expiresAt := e1,
          isAllocated := false })] := by
    simp [Inventory.applyEvent, Inventory.apply, mapSet_of_get_none hnone]
  refine ⟨?_, ?_, ?_, ?_⟩
  · unfold Inventory.reserveStock
    rw [if_neg h1ne, if_neg (not_lt.mpr hav1)]
  · unfold Inventory.reserveStock
    rw [if_neg h2ne, if_neg (not_lt.mpr hav2)]
  · have hstep : ((s.applyEvent (.stockReserved s.productId o q1 e1)).applyEvent
        (.stockReserved (s.applyEvent (.stockReserved s.productId o q1 e1)).productId o q2
          e2)).reservations =
        mapSet (s.reservations ++ [(s.id ++ "-" ++ o,
            { id := s.id ++ "-" ++ o, orderId := o, quantity := q1, expiresAt := e1,
              isAllocated := false })]) (s.id ++ "-" ++ o)
          { id := s.id ++ "-" ++ o, orderId := o, quantity := q2, expiresAt := e2,
            isAllocated := false } := by
      conv_lhs =>
        rw [show ∀ t : Inventory, (t.applyEvent (.stockReserved
            (s.applyEvent (.stockReserved s.productId o q1 e1)).productId o q2
              e2)).reservations =
            mapSet t.reservations (t.id ++ "-" ++ o)
              { id := t.id ++ "-" ++ o, orderId := o, quantity := q2, expiresAt := e2,
                isAllocated := false } from fun t => by
          simp [Inventory.applyEvent, Inventory.apply]]
      rw [hid, hres]
    rw [hstep, mapSet_append_single_same_key hnone]
    exact filter_key_append_single hnone _
  · simp [Inventory.applyEvent, Inventory.apply, add_assoc]

theorem reserve_twice_same_order_witness :
    c10s1.reserveStock "o1" 3 98 = .ok c10s2 ∧
    c10s2.reservedStock = c10inv.reservedStock + 2 + 3 :=
  ⟨(reserve_twice_same_order c10inv "o1" 2 3 99 98 rfl (by decide) (by decide)
      (by decide) (by decide)).2.1,
    (reserve_twice_same_order c10inv "o1" 2 3 99 98 rfl (by decide) (by decide)
      (by decide) (by decide)).2.2.2⟩

/-- Claim C10 (counterexample): with a live reservation in place, a second
`reserveStock` call with q2 = 0 satisfies availableStock >= q2 yet is rejected
by the positivity guard, so acceptance does not hold "whenever
availableStock >= q2". -/
theorem reserve_twice_zero_quantity_rejected :
    (((Inventory.create "inv1" "p1" "sku1" 10 5).reserveStock "o1" 2 99).map
        (fun s => s.getAvailableStock)) = .ok 8 ∧
    (((Inventory.create "inv1" "p1" "sku1" 10 5).reserveStock "o1" 2 99).bind
        (fun s => s.reserveStock "o1" 0 98)) =
      .error "Reservation quantity must be greater than zero" := by
  constructor <;> rfl

/-- Claim C7 (amended): only `updateStock` synthesizes stock alerts — as part
of the same command it appends an OutOfStockAlert when the resulting
availableStock is 0, and a LowStockAlert when it is positive but at most
`lowStockThreshold`; `reserveStock` and `allocateStock` append exactly their
own event and never an alert, even when they drive availableStock to zero. -/
theorem alerts_only_from_updateStock (s : Inventory) (n : Int) (reason : String)
    (ct : ChangeType) :
    (max 0 (s.newStockValue n ct - s.reservedStock) = 0 →
      (s.updateStock n reason ct).uncommittedEvents = s.uncommittedEvents ++
        [.stockUpdated s.productId s.currentStock (s.newStockValue n ct) reason ct,
          .outOfStockAlert s.productId]) ∧
    (¬ max 0 (s.newStockValue n ct - s.reservedStock) = 0 →
      max 0 (s.newStockValue n ct - s.reservedStock) ≤ s.lowStockThreshold →
      (s.updateStock n reason ct).uncommittedEvents = s.uncommittedEvents ++
        [.stockUpdated s.productId s.currentStock (s.newStockValue n ct) reason ct,
          .lowStockAlert s.productId (max 0 (s.newStockValue n ct - s.reservedStock))
            s.lowStockThreshold]) ∧
    (¬ max 0 (s.newStockValue n ct - s.reservedStock) = 0 →
      s.lowStockThreshold < max 0 (s.newStockValue n ct - s.reservedStock) →
      (s.updateStock n reason ct).uncommittedEvents = s.uncommittedEvents ++
        [.stockUpdated s.productId s.currentStock (s.newStockValue n ct) reason ct]) ∧
    (∀ (o : String) (q : Int) (e : Nat) (s' : Inventory),
      s.reserveStock o q e = .ok s' →
      s'.uncommittedEvents = s.uncommittedEvents ++ [.stockReserved s.productId o q e]) ∧
    (∀ (o : String) (q : Int) (s' : Inventory),
      s.allocateStock o q = .ok s' →
      s'.uncommittedEvents = s.uncommittedEvents ++ [.stockAllocated s.productId o q]) := by
  refine ⟨?_, ?_, ?_, ?_, ?_⟩
  · intro h0
    unfold Inventory.updateStock Inventory.checkStockAlerts
    simp [Inventory.applyEvent, Inventory.apply, Inventory.getAvailableStock, h0]
  · intro h0 hlow
    unfold Inventory.updateStock Inventory.checkStockAlerts
    simp [Inventory.applyEvent, Inventory.apply, Inventory.getAvailableStock, h0, hlow]
  · intro h0 hhigh
    unfold Inventory.updateStock Inventory.checkStockAlerts
    simp [Inventory.applyEvent, Inventory.apply, Inventory.getAvailableStock, h0,
      not_le.mpr hhigh]
  · intro o q e s' h
    unfold Inventory.reserveStock at h
    by_cases h1 : q ≤ 0
    · rw [if_pos h1] at h; exact Except.noConfusion h
    by_cases h2 : s.getAvailableStock < q
    · rw [if_neg h1, if_pos h2] at h; exact Except.noConfusion h
    rw [if_neg h1, if_neg h2] at h
    have := Except.ok.inj h
    subst this
    simp [Inventory.applyEvent, Inventory.apply]
  · intro o q s' h
    unfold Inventory.allocateStock at h
    cases hget : mapGet s.reservations (s.id ++ "-" ++ o) with
    | none =>
        rw [hget] at h
        exact Except.noConfusion
          (show (Except.error "Stock reservation not found" : Except String Inventory) =
            .ok s' from h)
    | some r0 =>
        rw [hget] at h
        have h2 : (if r0.quantity < q then
            (Except.error "Allocation quantity cannot exceed reserved quantity" :
              Except String Inventory)
          else .ok (s.applyEvent (.stockAllocated s.productId o q))) = .ok s' := h
        by_cases hlt : r0.quantity < q
        · rw [if_pos hlt] at h2; exact Except.noConfusion h2
        rw [if_neg hlt] at h2
        have := Except.ok.inj h2
        subst this
        simp [Inventory.applyEvent, Inventory.apply, hget]

theorem alerts_only_from_updateStock_witness :
    ((Inventory.create "invA" "p" "s" 5 2).updateStock 0 "zero" .set).uncommittedEvents =
      (Inventory.create "invA" "p" "s" 5 2).uncommittedEvents ++
        [.stockUpdated (Inventory.create "invA" "p" "s" 5 2).productId
            (Inventory.create "invA" "p" "s" 5 2).currentStock
            ((Inventory.create "invA" "p" "s" 5 2).newStockValue 0 .set) "zero" .set,
          .outOfStockAlert (Inventory.create "invA" "p" "s" 5 2).productId] ∧
    ((Inventory.create "invA" "p" "s" 5 2).applyEvent
          (.stockReserved (Inventory.create "invA" "p" "s" 5 2).productId "oA" 5
            99)).uncommittedEvents =
      (Inventory.create "invA" "p" "s" 5 2).uncommittedEvents ++
        [.stockReserved (Inventory.create "invA" "p" "s" 5 2).productId "oA" 5 99] :=
  ⟨(alerts_only_from_updateStock (Inventory.create "invA" "p" "s" 5 2) 0 "zero" .set).1
      (by decide),
    (alerts_only_from_updateStock (Inventory.create "invA" "p" "s" 5 2) 0 "zero"
          .set).2.2.2.1 "oA" 5 99 _ rfl⟩

/-- Claim C7 (counterexample): `reserveStock` drives availableStock to 0 but
appends no OutOfStockAlert — alerts are not emitted by the same command. -/
theorem reserveStock_no_alert_at_zero :
    (((Inventory.create "invC" "p" "s" 5 2).reserveStock "o1" 5 99).map
        (fun s => (s.getAvailableStock, s.uncommittedEvents))) =
      .ok (0, [.inventoryItemCreated "p" "s" 5 2 0, .stockReserved "p" "o1" 5 99]) := by
  rfl

/-- Claim C6: the concrete scenario cannot run — `new Order(id)` throws
`Invalid order address` (the constructor's empty-string placeholder
addresses fail the schema's `min(1)` rules) before the OrderCreated event is
applied, so creating the order never yields a total amount of 20, and the
cancel / failed-confirm steps are unreachable; the OrderItem that
`applyOrderCreated` would build for the scenario (id "ord1-p1", name "")
fails its own schema as well. -/
theorem order_creation_throws :
    Order.mkNew "ord1" = .error "Invalid order address" ∧
    Order.createChecked "ord1" "u1" [scenarioItem] scenarioAddress scenarioAddress
      "credit_card" = .error "Invalid order address" ∧
    OrderItem.validate
      { id := "ord1-p1"
        productId := "p1"
        sku := "S1"
        name := ""
        quantity := 2
        unitPrice := 10
        totalPrice := 10 * 2
        currency := "USD" } = .error "Invalid order item" := by
  refine ⟨rfl, rfl, rfl⟩

/-- Claim C5: no discontinued product can exist to reject or accept any
mutation — `new Product(id)` throws `Invalid product price` (the
constructor's default amount 0 fails the schema's `positive()` rule), so
every `Product.create` or `fromEvents` call fails at construction, before a
discontinue or any subsequent command can run; separately, the source
bodies of `updateStock` and `removeImage` contain no `isActive` guard at
all. -/
theorem product_construction_throws :
    Product.mkNew "pr1" = .error "Invalid product price" ∧
    Product.createChecked "pr1" "Lamp" "A lamp" 30 "cat1" "SKU-L" ["img1"] [] =
      .error "Invalid product price" := by
  refine ⟨rfl, rfl⟩

/-- Claim C1: `fromEvents` routes every replayed event through `applyEvent`,
which pushes onto `uncommittedEvents`, so a reconstructed aggregate reports
the already-committed events as uncommitted (for Order, Inventory and
Payment alike) — contradicting the spec, which requires the uncommitted list
to stay empty. -/
theorem fromEvents_populates_uncommitted :
    (Order.fromEvents "ord9" [.orderConfirmed "admin"]).uncommittedEvents =
      [.orderConfirmed "admin"] ∧
    (Inventory.fromEvents "inv9"
        [.inventoryItemCreated "p9" "sku9" 5 2 0]).uncommittedEvents =
      [.inventoryItemCreated "p9" "sku9" 5 2 0] ∧
    (Payment.fromEvents "pay9"
        [.paymentRequested "ord9" "u9" 50 "USD" "card"]).uncommittedEvents =
      [.paymentRequested "ord9" "u9" 50 "USD" "card"] := by
  refine ⟨rfl, rfl, rfl⟩

theorem insertEvents_get? {ε : Type} (aggregateId : String) (expectedVersion : Nat)
    (freshId freshTs : Nat → Nat) :
    ∀ (es : List (String × ε)) (j i : Nat),
      (insertEvents aggregateId expectedVersion freshId freshTs j es).get? i =
        (es.get? i).map (fun e =>
          { id := freshId (j + i)
            aggregateId := aggregateId
            eventType := e.1
            eventData := e.2
            version := expectedVersion + (j + i) + 1
            timestamp := freshTs (j + i) }) := by
  intro es
  induction es with
  | nil => intro j i; simp [insertEvents]
  | cons e rest ih =>
      intro j i
      cases i with
      | zero => simp [insertEvents]
      | succ i1 =>
          have harith : j + (i1 + 1) = (j + 1) + i1 := by omega
          simp only [insertEvents, List.get?_cons_succ, harith, ih (j + 1) i1]

/-- Claim C2: `saveEvents` checks that the current maximum persisted version
equals `expectedVersion`; on mismatch the transaction rolls back, the table
is unchanged and a concurrency error is surfaced; on success the batch is
appended in one transaction, the event at 1-based offset i receiving
`version = expectedVersion + i`. -/
theorem saveEvents_optimistic_concurrency {ε : Type} (store : List (StoredRow ε))
    (aggregateId : String) (events : List (String × ε)) (expectedVersion : Nat)
    (freshId freshTs : Nat → Nat) :
    (maxVersion store aggregateId ≠ expectedVersion →
      runSave store aggregateId events expectedVersion freshId freshTs =
        (store, some ("Concurrency conflict: expected version " ++
          toString expectedVersion ++ ", but current version is " ++
          toString (maxVersion store aggregateId)))) ∧
    (maxVersion store aggregateId = expectedVersion →
      runSave store aggregateId events expectedVersion freshId freshTs =
        (store ++ insertEvents aggregateId expectedVersion freshId freshTs 0 events,
          none) ∧
      ∀ i : Nat,
        ((insertEvents aggregateId expectedVersion freshId freshTs 0 events).get? i).map
            (fun row => (row.aggregateId, row.eventType, row.version)) =
          (events.get? i).map (fun e => (aggregateId, e.1, expectedVersion + i + 1))) := by
  constructor
  · intro hne
    unfold runSave saveEvents
    simp only [if_pos hne]
  · intro heq
    constructor
    · unfold runSave saveEvents
      simp only [heq]
      simp
    · intro i
      rw [insertEvents_get? aggregateId expectedVersion freshId freshTs events 0 i]
      cases events.get? i <;> simp

theorem saveEvents_optimistic_concurrency_witness :
    runSave c2store "agg" [("E2", 1), ("E3", 2)] 1 (fun i => 20 + i) (fun i => 6 + i) =
      (c2store ++ insertEvents "agg" 1 (fun i => 20 + i) (fun i => 6 + i) 0
        [("E2", 1), ("E3", 2)], none) ∧
    runSave c2store "agg" [("E2", 1)] 0 (fun i => 30 + i) (fun i => 7 + i) =
      (c2store, some ("Concurrency conflict: expected version " ++ toString 0 ++
        ", but current version is " ++ toString (maxVersion c2store "agg"))) :=
  ⟨((saveEvents_optimistic_concurrency c2store "agg" [("E2", 1), ("E3", 2)] 1
      (fun i => 20 + i) (fun i => 6 + i)).2 (by decide)).1,
    (saveEvents_optimistic_concurrency c2store "agg" [("E2", 1)] 0
      (fun i => 30 + i) (fun i => 7 + i)).1 (by decide)⟩

/-- Claim C8 (amended): the global feeds return at most `limit` rows drawn
from the table, every returned row passes the id cursor filter
(`id > fromPosition`, plus the type filter for `getEventsByType`), and the
result is ordered by timestamp then version — wall-clock order, not store
insertion order; because ids are random UUIDs, the id cursor does not
guarantee skip-free iteration. -/
theorem getAllEvents_pagination {ε : Type} (store : List (StoredRow ε))
    (eventType : String) (fromPosition limit : Nat) :
    List.Sorted rowLe (getAllEvents store fromPosition limit) ∧
    (getAllEvents store fromPosition limit).length ≤ limit ∧
    (∀ r ∈ getAllEvents store fromPosition limit, r ∈ store ∧ fromPosition < r.id) ∧
    List.Sorted rowLe (getEventsByType store eventType fromPosition limit) ∧
    (getEventsByType store eventType fromPosition limit).length ≤ limit ∧
    (∀ r ∈ getEventsByType store eventType fromPosition limit,
      r ∈ store ∧ r.eventType = eventType ∧ fromPosition < r.id) := by
  refine ⟨?_, ?_, ?_, ?_, ?_, ?_⟩
  · exact List.Pairwise.sublist (List.take_sublist _ _)
      (List.sorted_insertionSort rowLe _)
  · exact List.length_take_le _ _
  · intro r hr
    have h1 : r ∈ (store.filter (fun t => decide (fromPosition < t.id))).insertionSort
        rowLe :=
      (List.take_sublist _ _).mem hr
    have h2 : r ∈ store.filter (fun t => decide (fromPosition < t.id)) :=
      (List.perm_insertionSort rowLe _).mem_iff.mp h1
    have h3 := List.mem_filter.mp h2
    exact ⟨h3.1, of_decide_eq_true h3.2⟩
  · exact List.Pairwise.sublist (List.take_sublist _ _)
      (List.sorted_insertionSort rowLe _)
  · exact List.length_take_le _ _
  · intro r hr
    have h1 : r ∈ (store.filter
        (fun t => t.eventType == eventType && decide (fromPosition < t.id))).insertionSort
        rowLe :=
      (List.take_sublist _ _).mem hr
    have h2 : r ∈ store.filter
        (fun t => t.eventType == eventType && decide (fromPosition < t.id)) :=
      (List.perm_insertionSort rowLe _).mem_iff.mp h1
    have h3 := List.mem_filter.mp h2
    have h4 := Bool.and_eq_true_iff.mp h3.2
    refine ⟨h3.1, by simpa using h4.1, of_decide_eq_true h4.2⟩

theorem getAllEvents_pagination_witness :
    rowA ∈ storeX ∧ 0 < rowA.id :=
  (getAllEvents_pagination storeX "E" 0 1).2.2.1 rowA (by decide)

/-- Claim C8 (counterexample): with colliding timestamps and random ids,
iterating with the id cursor skips rowB entirely (page 1 returns only rowA,
and no row has id > 3), and with distinct timestamps the feed returns rows in
timestamp order, not store insertion order. -/
theorem getAllEvents_cursor_skips :
    getAllEvents storeX 0 1 = [rowA] ∧
    getAllEvents storeX 3 100 = [] ∧
    rowB ∈ storeX ∧
    getAllEvents storeY 0 100 = [rowD, rowC] ∧
    storeY = [rowC, rowD] := by
  refine ⟨by rfl, by rfl, by simp [storeX], by rfl, rfl⟩

/-- Claim C3: evaluated at freshly created aggregates (one uncommitted event,
version 1).  The Order and Inventory repository saves succeed with
`expectedVersion = version - count = 0` but leave the uncommitted list
non-empty (`markEventsAsCommitted` is never called); the Product repository
save passes `expectedVersion = version = 1` against an empty stream and
always fails its own concurrency check. -/
theorem repository_save_divergence :
    (orderRepoSave [] c3order (fun i => i) (fun i => i)).map
        (fun r => (r.2.uncommittedEvents.length, r.2.version)) = .ok (1, 1) ∧
    (inventoryRepoSave [] c3inventory (fun i => i) (fun i => i)).map
        (fun r => r.2.uncommittedEvents.length) = .ok 1 ∧
    productRepoSave [] c3product (fun i => i) (fun i => i) =
      .error ("Concurrency conflict: expected version " ++ toString 1 ++
        ", but current version is " ++ toString 0) := by
  refine ⟨by rfl, by rfl, by rfl⟩

end EventDriven

